import Mathlib

/-!
Verification of the marco regime-classification engine
(`backend/app/rules.py`, `backend/app/snapshot_logic.py`,
`backend/app/ingest.py`, `backend/app/allocations.py`).

Dates are embedded as integer day numbers (ℤ); numeric values as ℚ.
A series is a list of (date, value) pairs; a missing value is `none`.
-/

attribute [local semireducible] Rat.add Rat.sub Rat.mul Rat.inv Rat.ofScientific

namespace Marco

/-- Indicator state letters, the code's "G"/"Y"/"R"/"U" strings. -/
inductive St where
  | G
  | Y
  | R
  | U
deriving DecidableEq, Repr

/-- Detail payload of the quantile classifier: either the
insufficient-history reason or the computed thresholds plus the raw value
(the `details` dict of `rules.state_from_quantiles`). -/
inductive QDetails where
  | insufficient
  | thresholds (q1 q2 value : ℚ)
deriving DecidableEq, Repr

/-- Linear-interpolation empirical quantile of a list of values
(pandas `Series.quantile`, default interpolation). -/
def quantileLinear (xs : List ℚ) (q : ℚ) : ℚ :=
  let s := List.insertionSort (· ≤ ·) xs
  if s.length = 0 then 0
  else
    let h : ℚ := q * ((s.length : ℚ) - 1)
    let i : ℕ := h.floor.toNat
    let lo := s.getD i 0
    let hi := s.getD (min (i + 1) (s.length - 1)) 0
    lo + (h - (i : ℚ)) * (hi - lo)

/-- The rolling window of `rules.quantile_thresholds`: the history
restricted to dates in `[asof - window_days, asof)`. -/
def classifierWindow (history : List (ℤ × ℚ)) (asof : ℤ) (window_days : ℤ) :
    List (ℤ × ℚ) :=
  let start := asof - window_days
  history.filter (fun p => decide (start ≤ p.1) && decide (p.1 < asof))

/-- Embedding of `rules.quantile_thresholds`: restrict `history` to the
window `[asof - window_days, asof)`, demand at least 60 observations,
then return the two empirical quantiles of the window's values. -/
def quantile_thresholds (history : List (ℤ × ℚ)) (asof : ℤ) (window_days : ℤ)
    (qs : ℚ × ℚ) : Option (ℚ × ℚ) :=
  let window := classifierWindow history asof window_days
  if window.length < 60 then none
  else some (quantileLinear (window.map (fun p => p.2)) qs.1,
             quantileLinear (window.map (fun p => p.2)) qs.2)

/-- Embedding of `rules.state_from_quantiles`. -/
def state_from_quantiles (history : List (ℤ × ℚ)) (asof : ℤ) (value : ℚ)
    (window_days : ℤ) (qs : ℚ × ℚ) (high_is_riskoff : Bool) :
    St × Option ℚ × QDetails :=
  match quantile_thresholds history asof window_days qs with
  | none => (St.U, none, QDetails.insufficient)
  | some (q1, q2) =>
    if high_is_riskoff then
      if q2 ≤ value then (St.R, some 2, QDetails.thresholds q1 q2 value)
      else if q1 ≤ value then (St.Y, some 1, QDetails.thresholds q1 q2 value)
      else (St.G, some 0, QDetails.thresholds q1 q2 value)
    else
      if value ≤ q2 then (St.R, some 2, QDetails.thresholds q1 q2 value)
      else if value ≤ q1 then (St.Y, some 1, QDetails.thresholds q1 q2 value)
      else (St.G, some 0, QDetails.thresholds q1 q2 value)

/-- A 60-observation ramp history: value i at date i, for i = 0,…,59. -/
def rampHistory : List (ℤ × ℚ) :=
  (List.range 60).map (fun i => ((i : ℤ), (i : ℚ)))

/-- A 59-observation ramp history: value i at date i, for i = 0,…,58. -/
def rampHistory59 : List (ℤ × ℚ) :=
  (List.range 59).map (fun i => ((i : ℤ), (i : ℚ)))

/-- The ramp history followed by an extreme value on the evaluation date. -/
def rampPlusHigh : List (ℤ × ℚ) := rampHistory ++ [(60, 1000)]

/-- The ramp history followed by different extreme values at dates ≥ 60. -/
def rampPlusWild : List (ℤ × ℚ) := rampHistory ++ [(60, -555), (70, 12345)]

/-- Sort a series by date (pandas `sort_index`). -/
def sortByDate (s : List (ℤ × ℚ)) : List (ℤ × ℚ) :=
  List.insertionSort (fun p q => p.1 ≤ q.1) s

/-- What `pd.merge_asof(..., direction="backward")` assigns at date `d`:
the last observation of the (sorted) right series dated at or before `d`. -/
def lastLeq (o : List (ℤ × ℚ)) (d : ℤ) : Option ℚ :=
  ((o.filter (fun p => decide (p.1 ≤ d))).getLast?).map (fun p => p.2)

/-- Embedding of `snapshot_logic._align_asof`: align `other` to `base`'s
dates via a backward as-of merge; a date with no usable observation gets
`none` (the code's NaN). -/
def align_asof (base other : List (ℤ × ℚ)) : List (ℤ × Option ℚ) :=
  if base = [] then []
  else if other = [] then base.map (fun p => (p.1, (none : Option ℚ)))
  else
    let b := sortByDate base
    let o := sortByDate other
    b.map (fun p => (p.1, lastLeq o p.1))

/-- Fold step selecting the later-dated of two observations (ties go to
the right argument). -/
def laterObs (acc : Option (ℤ × ℚ)) (p : ℤ × ℚ) : Option (ℤ × ℚ) :=
  match acc with
  | none => some p
  | some q => if q.1 ≤ p.1 then some p else some q

/-- Spec-side reading of "the most recent `other` observation at or
before that date": the value attached to the maximal date ≤ d among the
other series' observations, `none` when there is no such observation. -/
def mostRecentAtOrBefore (o : List (ℤ × ℚ)) (d : ℤ) : Option ℚ :=
  ((o.filter (fun p => decide (p.1 ≤ d))).foldl laterObs none).map (fun p => p.2)

/-- Spec-side backward as-of alignment, written from the spec's words: a
series over exactly the base series' dates, where the value at each base
date is the most recent other-series observation at or before that date,
and missing (not zero) when the other series has no observation at or
before that date. -/
def alignBackward_spec (base other : List (ℤ × ℚ)) : List (ℤ × Option ℚ) :=
  base.map (fun p => (p.1, mostRecentAtOrBefore other p.1))

/-- Embedding of `allocations.AllocationTemplate` (weights as exact
rationals; the Python floats are decimal literals). -/
structure AllocationTemplate where
  name : String
  asset_class_weights : List (String × ℚ)
  equity_bucket_weights : List (String × ℚ)
  overlays : List (String × ℚ)
deriving DecidableEq, Repr

/-- The "Risk-On" template of `allocations.TEMPLATES`. -/
def riskOnTemplate : AllocationTemplate :=
  { name := "Risk-On"
    asset_class_weights :=
      [("Equity", 60/100), ("Rates", 10/100), ("Credit", 15/100),
       ("Cash", 5/100), ("Gold&Commodities", 10/100)]
    equity_bucket_weights :=
      [("Tech+CommSvcs", 25/100), ("ConsDisc", 15/100),
       ("Industrials", 15/100), ("Financials", 12/100),
       ("Materials", 8/100), ("Energy", 8/100), ("HealthCare", 10/100),
       ("Staples+Utilities+RE", 7/100)]
    overlays := [("FX_HEDGE", 20/100)] }

/-- The "Neutral" template of `allocations.TEMPLATES`. -/
def neutralTemplate : AllocationTemplate :=
  { name := "Neutral"
    asset_class_weights :=
      [("Equity", 45/100), ("Rates", 20/100), ("Credit", 15/100),
       ("Cash", 10/100), ("Gold&Commodities", 10/100)]
    equity_bucket_weights :=
      [("Tech+CommSvcs", 18/100), ("ConsDisc", 10/100),
       ("Industrials", 12/100), ("Financials", 12/100),
       ("Materials", 8/100), ("Energy", 6/100), ("HealthCare", 14/100),
       ("Staples+Utilities+RE", 20/100)]
    overlays := [("FX_HEDGE", 50/100)] }

/-- The "Risk-Off" template of `allocations.TEMPLATES`. -/
def riskOffTemplate : AllocationTemplate :=
  { name := "Risk-Off"
    asset_class_weights :=
      [("Equity", 25/100), ("Rates", 40/100), ("Credit", 5/100),
       ("Cash", 20/100), ("Gold&Commodities", 10/100)]
    equity_bucket_weights :=
      [("Tech+CommSvcs", 12/100), ("ConsDisc", 5/100),
       ("Industrials", 8/100), ("Financials", 8/100),
       ("Materials", 5/100), ("Energy", 4/100), ("HealthCare", 22/100),
       ("Staples+Utilities+RE", 36/100)]
    overlays := [("FX_HEDGE", 90/100)] }

/-- Embedding of `allocations.TEMPLATES` (an association list, keyed as
in the source dict). -/
def TEMPLATES : List (String × AllocationTemplate) :=
  [("Risk-On", riskOnTemplate), ("Neutral", neutralTemplate),
   ("Risk-Off", riskOffTemplate)]

/-- Embedding of `allocations.template_for_regime`. -/
def template_for_regime (regime : String) : Option AllocationTemplate :=
  if regime = "A" then some riskOnTemplate
  else if regime = "B" then some neutralTemplate
  else if regime = "C" then some riskOffTemplate
  else none

/-- Sum of the weights of an association list of weights. -/
def weightSum (ws : List (String × ℚ)) : ℚ :=
  (ws.map (fun p => p.2)).sum

/-- Dictionary lookup in an association list of indicator states (the
`states` dict of `build_snapshot` / `ingest_and_compute`). -/
def lookupState (states : List (String × St)) (k : String) : Option St :=
  (states.find? (fun p => decide (p.1 = k))).map (fun p => p.2)

/-- Embedding of the `_score` helper of `build_snapshot` and
`ingest_and_compute`: G→0, Y→1, R→2, anything else (U)→0. -/
def score (st : St) : ℕ :=
  match st with
  | St.G => 0
  | St.Y => 1
  | St.R => 2
  | St.U => 0

/-- The dynamically chosen volatility member: prefer `vix_structure` if
classified, else `vix_level` if classified, else none. -/
def vixKeyOf (states : List (String × St)) : Option String :=
  if (lookupState states "vix_structure").isSome then some "vix_structure"
  else if (lookupState states "vix_level").isSome then some "vix_level"
  else none

/-- The core_keys of `build_snapshot`: the fixed triple restricted to the
members actually classified, then the volatility member if any. -/
def snapshotCoreKeys (states : List (String × St)) : List String :=
  (["synthetic_liquidity", "credit_spread", "funding_stress"].filter
    (fun k => (lookupState states k).isSome)) ++ (vixKeyOf states).toList

/-- The core_keys of `ingest_and_compute`: the fixed triple is always
included, classified or not, then the volatility member if any. -/
def ingestCoreKeys (states : List (String × St)) : List String :=
  ["synthetic_liquidity", "credit_spread", "funding_stress"]
    ++ (vixKeyOf states).toList

/-- The `core_states` dict: each core key mapped to its state, with the
code's `states.get(k, ("U", None))[0]` default of U. -/
def coreStatesOf (states : List (String × St)) (core_keys : List String) :
    List (String × St) :=
  core_keys.map (fun k => (k, (lookupState states k).getD St.U))

/-- The written regime record: code letter, risk score, and the
reds/greens driver counts. -/
structure RegimeResult where
  regime : String
  risk_score : ℕ
  reds : ℕ
  greens : ℕ
deriving DecidableEq, Repr

/-- Embedding of the regime-aggregation block of
`snapshot_logic.build_snapshot` (lines 229-277): no regime at all unless
at least 3 core keys are classified. -/
def build_snapshot_regime (states : List (String × St)) : Option RegimeResult :=
  let core_keys := snapshotCoreKeys states
  let vix_key := vixKeyOf states
  let core_states := coreStatesOf states core_keys
  let reds := core_states.countP (fun p => decide (p.2 = St.R))
  let greens := core_states.countP (fun p => decide (p.2 = St.G))
  if 3 ≤ core_keys.length then
    let regime_code :=
      if greens = core_keys.length then "A"
      else if 3 ≤ reds ∨ (2 ≤ reds ∧ vix_key.isSome ∧
          vix_key.bind (fun k => lookupState core_states k) = some St.R) then "C"
      else "B"
    some ⟨regime_code, (core_states.map (fun p => score p.2)).sum, reds, greens⟩
  else none

/-- The allocation of `build_snapshot`: present exactly when a regime was
declared and a template exists for its code. -/
def build_snapshot_allocation (states : List (String × St)) :
    Option AllocationTemplate :=
  (build_snapshot_regime states).bind (fun r => template_for_regime r.regime)

/-- Embedding of the regime block of `ingest.ingest_and_compute` (lines
431-459): the regime is computed unconditionally, with unclassified core
members counted as U. -/
def ingest_regime (states : List (String × St)) : RegimeResult :=
  let core_keys := ingestCoreKeys states
  let vix_key := vixKeyOf states
  let core_states := coreStatesOf states core_keys
  let reds := core_states.countP (fun p => decide (p.2 = St.R))
  let greens := core_states.countP (fun p => decide (p.2 = St.G))
  let regime :=
    if greens = core_keys.length ∧ 3 ≤ core_keys.length then "A"
    else if 3 ≤ reds ∨ (2 ≤ reds ∧
        vix_key.bind (fun k => lookupState core_states k) = some St.R) then "C"
    else "B"
  ⟨regime, (core_states.map (fun p => score p.2)).sum, reds, greens⟩

/-- The regime record `ingest_and_compute` writes: `_write_regime_state`
is called iff `template_for_regime` finds a template for the code. -/
def ingest_regime_written (states : List (String × St)) : Option RegimeResult :=
  let r := ingest_regime states
  if (template_for_regime r.regime).isSome then some r else none

/-- The severity encoding fixed by the claims: Green=0, Yellow=1, Red=2,
Unknown=0 (an Unknown member contributes 0, it is not excluded). -/
def claimSeverity (st : St) : ℕ :=
  match st with
  | St.G => 0
  | St.Y => 1
  | St.R => 2
  | St.U => 0

/-- The decision rule in the vocabulary of claim C1: all present core
members Green → A; else reds ≥ 3, or reds ≥ 2 with the volatility member
Red → C; else B. -/
def claimRegimeRule (states : List (String × St)) : String :=
  let ck := snapshotCoreKeys states
  let stOf : String → St := fun k => (lookupState states k).getD St.U
  if ∀ k ∈ ck, stOf k = St.G then "A"
  else if 3 ≤ ck.countP (fun k => decide (stOf k = St.R)) ∨
      (2 ≤ ck.countP (fun k => decide (stOf k = St.R)) ∧
        (vixKeyOf states).bind (lookupState states) = some St.R) then "C"
  else "B"

/-- Four Green core members. -/
def coreAllGreen : List (String × St) :=
  [("synthetic_liquidity", St.G), ("credit_spread", St.G),
   ("funding_stress", St.G), ("vix_structure", St.G)]

/-- Three Red members and a Green volatility member. -/
def coreThreeRed : List (String × St) :=
  [("synthetic_liquidity", St.R), ("credit_spread", St.R),
   ("funding_stress", St.R), ("vix_structure", St.G)]

/-- Two Red members, one of them the volatility member. -/
def coreTwoRedVol : List (String × St) :=
  [("synthetic_liquidity", St.R), ("credit_spread", St.G),
   ("funding_stress", St.G), ("vix_structure", St.R)]

/-- Two Red members, neither the volatility member. -/
def coreTwoRedNoVol : List (String × St) :=
  [("synthetic_liquidity", St.R), ("credit_spread", St.R),
   ("funding_stress", St.G), ("vix_structure", St.G)]

/-- Four Yellow core members. -/
def coreAllYellow : List (String × St) :=
  [("synthetic_liquidity", St.Y), ("credit_spread", St.Y),
   ("funding_stress", St.Y), ("vix_structure", St.Y)]

/-- Embedding of `snapshot_logic._max_date_leq`: the maximum observation
date of indicator `k` at or before `asof`, over a store of
(indicator key, observation date) rows. -/
def max_date_leq (db : List (String × ℤ)) (k : String) (asof : ℤ) : Option ℤ :=
  ((db.filter (fun p => decide (p.1 = k) && decide (p.2 ≤ asof))).map
    (fun p => p.2)).max?

/-- The dynamic core source list of `_choose_effective_asof`: `walcl` and
`hy_oas` always; `funding_spread` only if it has data by the end date;
then `vix_slope` if it has data, else `vix`. -/
def core_sources_for (db : List (String × ℤ)) (e : ℤ) : List String :=
  ["walcl", "hy_oas"]
    ++ (if (max_date_leq db "funding_spread" e).isSome
        then ["funding_spread"] else [])
    ++ [if (max_date_leq db "vix_slope" e).isSome then "vix_slope" else "vix"]

/-- Embedding of `snapshot_logic._choose_effective_asof`: the minimum of
the per-source maximum dates (sources with no data are skipped), none if
no core source has any observation at or before the end date. -/
def choose_effective_asof (db : List (String × ℤ)) (today : ℤ)
    (requested : Option ℤ) : Option ℤ :=
  let e := requested.getD today
  ((core_sources_for db e).filterMap (fun k => max_date_leq db k e)).min?

/-- A concrete observation store for evaluating the as-of resolution. -/
def cdb : List (String × ℤ) :=
  [("walcl", 10), ("walcl", 12), ("hy_oas", 11), ("vix", 13)]

/-- The classifier window factors through truncation of the history at
`asof`: only observations strictly before `asof` can enter the window. -/
theorem classifierWindow_factor (h : List (ℤ × ℚ)) (asof wd : ℤ) :
    classifierWindow h asof wd =
      (h.filter (fun p => decide (p.1 < asof))).filter
        (fun p => decide (asof - wd ≤ p.1)) := by
  unfold classifierWindow
  rw [List.filter_filter]

/-- Claim C2: with at most 59 observations in the restricted window the
classifier returns Unknown with null severity and the
insufficient-history reason; with at least 60 it returns one of the real
states G/Y/R with a non-null severity.  The sufficiency boundary is
inclusive at 60. -/
theorem state_from_quantiles_window_sufficiency
    (history : List (ℤ × ℚ)) (asof : ℤ) (value : ℚ) (window_days : ℤ)
    (qs : ℚ × ℚ) (hir : Bool) :
    ((classifierWindow history asof window_days).length ≤ 59 →
      state_from_quantiles history asof value window_days qs hir =
        (St.U, none, QDetails.insufficient)) ∧
    (60 ≤ (classifierWindow history asof window_days).length →
      ((state_from_quantiles history asof value window_days qs hir).1 = St.G ∨
       (state_from_quantiles history asof value window_days qs hir).1 = St.Y ∨
       (state_from_quantiles history asof value window_days qs hir).1 = St.R) ∧
      (state_from_quantiles history asof value window_days qs hir).2.1 ≠ none) := by
  constructor
  · intro h
    have hlt : (classifierWindow history asof window_days).length < 60 := by omega
    simp only [state_from_quantiles, quantile_thresholds, if_pos hlt]
  · intro h
    have hlt : ¬ (classifierWindow history asof window_days).length < 60 := by omega
    simp only [state_from_quantiles, quantile_thresholds, if_neg hlt]
    cases hir <;> simp only [Bool.false_eq_true, if_false, if_true] <;>
      split_ifs <;> simp

/-- Evaluation of the claim-C2 boundary: exactly 59 qualifying points give
Unknown/null, exactly 60 give a real state with non-null severity. -/
theorem state_from_quantiles_window_sufficiency_witness :
    ((classifierWindow rampHistory59 60 1095).length ≤ 59 ∧
      state_from_quantiles rampHistory59 60 5 1095 (9/10, 19/20) true =
        (St.U, none, QDetails.insufficient)) ∧
    (60 ≤ (classifierWindow rampHistory 60 1095).length ∧
      ((state_from_quantiles rampHistory 60 60 1095 (9/10, 19/20) true).1 = St.G ∨
       (state_from_quantiles rampHistory 60 60 1095 (9/10, 19/20) true).1 = St.Y ∨
       (state_from_quantiles rampHistory 60 60 1095 (9/10, 19/20) true).1 = St.R) ∧
      (state_from_quantiles rampHistory 60 60 1095 (9/10, 19/20) true).2.1 ≠ none) :=
  ⟨⟨by decide,
    (state_from_quantiles_window_sufficiency rampHistory59 60 5 1095
      (9/10, 19/20) true).1 (by decide)⟩,
   ⟨by decide,
    (state_from_quantiles_window_sufficiency rampHistory 60 60 1095
      (9/10, 19/20) true).2 (by decide)⟩⟩

/-- Claim C3: two-run no-lookahead.  Two histories that agree on all
observations dated strictly before `asof` (and may differ arbitrarily at
dates ≥ `asof`) classify identically — the same state, severity and
threshold details — for the same asof, value, window and quantile pair. -/
theorem state_from_quantiles_no_lookahead
    (h1 h2 : List (ℤ × ℚ)) (asof : ℤ) (value : ℚ) (window_days : ℤ)
    (qs : ℚ × ℚ) (hir : Bool)
    (hagree : h1.filter (fun p => decide (p.1 < asof)) =
      h2.filter (fun p => decide (p.1 < asof))) :
    state_from_quantiles h1 asof value window_days qs hir =
      state_from_quantiles h2 asof value window_days qs hir := by
  have hwin : classifierWindow h1 asof window_days =
      classifierWindow h2 asof window_days := by
    rw [classifierWindow_factor, classifierWindow_factor, hagree]
  simp only [state_from_quantiles, quantile_thresholds, hwin]

/-- Evaluation of claim C3 on a crafted pair: identical up to date 59,
extreme disagreements at dates 60 and 70, identical classification. -/
theorem state_from_quantiles_no_lookahead_witness :
    rampPlusHigh.filter (fun p => decide (p.1 < 60)) =
      rampPlusWild.filter (fun p => decide (p.1 < 60)) ∧
    state_from_quantiles rampPlusHigh 60 54 1095 (9/10, 19/20) true =
      state_from_quantiles rampPlusWild 60 54 1095 (9/10, 19/20) true :=
  ⟨by decide,
   state_from_quantiles_no_lookahead rampPlusHigh rampPlusWild 60 54 1095
     (9/10, 19/20) true (by decide)⟩

/-- Counterexample to claim C4: a sufficient window with thresholds
t1 < t2, yet under `high_is_riskoff = false` no value at all is
classified Yellow — the middle band claimed by the spec is empty. -/
theorem low_riskoff_no_yellow_counterexample :
    (∃ q1 q2, quantile_thresholds rampHistory 60 1095 (9/10, 19/20) =
        some (q1, q2) ∧ q1 < q2) ∧
    ¬ ∃ v : ℚ, (state_from_quantiles rampHistory 60 v 1095 (9/10, 19/20)
        false).1 = St.Y := by
  have hth : quantile_thresholds rampHistory 60 1095 (9/10, 19/20) =
      some (531/10, 1121/20) := by decide
  refine ⟨⟨531/10, 1121/20, hth, by decide⟩, ?_⟩
  rintro ⟨v, hv⟩
  simp only [state_from_quantiles, hth, Bool.false_eq_true, if_false] at hv
  have hq : (531/10 : ℚ) ≤ 1121/20 := by decide
  split_ifs at hv with h1 h2
  exact h1 (le_trans h2 hq)

/-- Claim C4 as amended: when `high_is_riskoff` is false and the computed
thresholds satisfy t1 ≤ t2, the classifier is two-bucket, not
three-bucket: every value ≤ t2 is Red with severity 2 and every value
> t2 is Green with severity 0, and no value is classified Yellow. -/
theorem state_from_quantiles_low_riskoff_two_bucket
    (history : List (ℤ × ℚ)) (asof : ℤ) (value : ℚ) (window_days : ℤ)
    (qs : ℚ × ℚ) (q1 q2 : ℚ)
    (hth : quantile_thresholds history asof window_days qs = some (q1, q2))
    (hle : q1 ≤ q2) :
    state_from_quantiles history asof value window_days qs false =
      (if value ≤ q2 then (St.R, some 2, QDetails.thresholds q1 q2 value)
       else (St.G, some 0, QDetails.thresholds q1 q2 value)) ∧
    (state_from_quantiles history asof value window_days qs false).1 ≠ St.Y := by
  simp only [state_from_quantiles, hth, Bool.false_eq_true, if_false]
  split_ifs with h1 h2
  · exact ⟨rfl, by simp⟩
  · exact absurd (le_trans h2 hle) h1
  · exact ⟨rfl, by simp⟩

/-- Evaluation of the amended claim C4 at a concrete input: value 54 lies
strictly between the thresholds 53.1 and 56.05 yet is classified Red. -/
theorem state_from_quantiles_low_riskoff_two_bucket_witness :
    quantile_thresholds rampHistory 60 1095 (9/10, 19/20) =
      some (531/10, 1121/20) ∧
    (531/10 : ℚ) ≤ 1121/20 ∧
    state_from_quantiles rampHistory 60 54 1095 (9/10, 19/20) false =
      (if (54 : ℚ) ≤ 1121/20 then
        (St.R, some 2, QDetails.thresholds (531/10) (1121/20) 54)
       else (St.G, some 0, QDetails.thresholds (531/10) (1121/20) 54)) :=
  ⟨by decide, by decide,
   (state_from_quantiles_low_riskoff_two_bucket rampHistory 60 54 1095
     (9/10, 19/20) (531/10) (1121/20) (by decide) (by decide)).1⟩

/-- Folding `laterObs` from a seed dated no later than any list element
returns the last element of a date-sorted list (or the seed if empty). -/
theorem foldl_laterObs_some (l : List (ℤ × ℚ)) :
    ∀ a : ℤ × ℚ, l.Pairwise (fun p q => p.1 ≤ q.1) → (∀ x ∈ l, a.1 ≤ x.1) →
      l.foldl laterObs (some a) = some (l.getLastD a) := by
  induction l with
  | nil => intro a _ _; rfl
  | cons b t ih =>
    intro a hpair ha
    have hab : a.1 ≤ b.1 := ha b (List.mem_cons_self b t)
    have hstep : laterObs (some a) b = some b := by simp [laterObs, hab]
    rw [List.foldl_cons, hstep, List.getLastD_cons]
    have h1 := List.pairwise_cons.mp hpair
    exact ih b h1.2 h1.1

/-- Folding `laterObs` from `none` over a date-sorted list returns its
last element. -/
theorem foldl_laterObs_none (l : List (ℤ × ℚ))
    (h : l.Pairwise (fun p q => p.1 ≤ q.1)) :
    l.foldl laterObs none = l.getLast? := by
  cases l with
  | nil => rfl
  | cons b t =>
    have h1 := List.pairwise_cons.mp h
    rw [List.foldl_cons]
    have hstep : laterObs none b = some b := rfl
    rw [hstep, foldl_laterObs_some t b h1.2 h1.1, List.getLast?_cons,
      List.getLastD_eq_getLast?]

/-- On a date-sorted series, the backward-merge assignment coincides with
the spec's "most recent observation at or before". -/
theorem lastLeq_eq_mostRecent (o : List (ℤ × ℚ)) (d : ℤ)
    (ho : o.Pairwise (fun p q => p.1 ≤ q.1)) :
    lastLeq o d = mostRecentAtOrBefore o d := by
  unfold lastLeq mostRecentAtOrBefore
  rw [foldl_laterObs_none _ (ho.filter _)]

/-- Claim C5: backward as-of alignment returns a series over exactly the
base series' dates whose value at each base date is the most recent
other-series observation at or before that date, and is missing (`none`,
not zero) when the other series has no observation at or before it. -/
theorem align_asof_correct (base other : List (ℤ × ℚ))
    (hb : base.Pairwise (fun p q => p.1 < q.1))
    (ho : other.Pairwise (fun p q => p.1 < q.1)) :
    align_asof base other = alignBackward_spec base other := by
  by_cases hbase : base = []
  · subst hbase
    simp [align_asof, alignBackward_spec]
  · rw [align_asof, if_neg hbase]
    by_cases hoth : other = []
    · subst hoth
      simp [alignBackward_spec, mostRecentAtOrBefore, laterObs]
    · rw [if_neg hoth]
      have hble : base.Pairwise (fun p q : ℤ × ℚ => p.1 ≤ q.1) :=
        hb.imp (fun h => le_of_lt h)
      have hole : other.Pairwise (fun p q : ℤ × ℚ => p.1 ≤ q.1) :=
        ho.imp (fun h => le_of_lt h)
      have hbs : sortByDate base = base :=
        List.Sorted.insertionSort_eq hble
      have hos : sortByDate other = other :=
        List.Sorted.insertionSort_eq hole
      rw [hbs, hos, alignBackward_spec, List.map_eq_map_iff]
      intro p _
      rw [lastLeq_eq_mostRecent other p.1 hole]

/-- Evaluation of claim C5 at its concrete instance: base dates 1, 3, 5,
other-series observations only at dates 0 and 4; the aligned values are
the date-0 value, the date-0 value, the date-4 value. -/
theorem align_asof_correct_witness :
    ([((1 : ℤ), (100 : ℚ)), (3, 300), (5, 500)].Pairwise
        (fun p q => p.1 < q.1)) ∧
    align_asof [((1 : ℤ), (100 : ℚ)), (3, 300), (5, 500)] [(0, 10), (4, 40)] =
      alignBackward_spec [((1 : ℤ), (100 : ℚ)), (3, 300), (5, 500)]
        [(0, 10), (4, 40)] ∧
    align_asof [((1 : ℤ), (100 : ℚ)), (3, 300), (5, 500)] [(0, 10), (4, 40)] =
      [(1, some 10), (3, some 10), (5, some 40)] :=
  ⟨by decide,
   align_asof_correct _ _ (by decide) (by decide),
   by decide⟩

/-- Claim C8: each built-in allocation template's asset-class weights and
equity-bucket weights sum to 1.0 within 1e-6, and `template_for_regime`
maps the regime codes A, B, C to exactly the Risk-On, Neutral and
Risk-Off templates respectively. -/
theorem templates_invariant :
    |weightSum riskOnTemplate.asset_class_weights - 1| ≤ 1/1000000 ∧
    |weightSum riskOnTemplate.equity_bucket_weights - 1| ≤ 1/1000000 ∧
    |weightSum neutralTemplate.asset_class_weights - 1| ≤ 1/1000000 ∧
    |weightSum neutralTemplate.equity_bucket_weights - 1| ≤ 1/1000000 ∧
    |weightSum riskOffTemplate.asset_class_weights - 1| ≤ 1/1000000 ∧
    |weightSum riskOffTemplate.equity_bucket_weights - 1| ≤ 1/1000000 ∧
    TEMPLATES.map (fun p => p.2) =
      [riskOnTemplate, neutralTemplate, riskOffTemplate] ∧
    template_for_regime "A" = some riskOnTemplate ∧
    template_for_regime "B" = some neutralTemplate ∧
    template_for_regime "C" = some riskOffTemplate := by
  decide

/-- Looking a key up in the core-state dict yields its state with the U
default, provided the key is among the core keys. -/
theorem lookupState_coreStatesOf (states : List (String × St)) :
    ∀ (ck : List String) (k : String), k ∈ ck →
      lookupState (coreStatesOf states ck) k =
        some ((lookupState states k).getD St.U) := by
  intro ck
  induction ck with
  | nil => exact fun k hk => absurd hk (List.not_mem_nil k)
  | cons a t ih =>
    intro k hk
    by_cases hak : a = k
    · subst hak
      simp [coreStatesOf, lookupState]
    · have hkt : k ∈ t := by
        rcases List.mem_cons.mp hk with h | h
        · exact absurd h.symm hak
        · exact h
      have hstep : lookupState (coreStatesOf states (a :: t)) k =
          lookupState (coreStatesOf states t) k := by
        simp only [coreStatesOf, List.map_cons, lookupState]
        rw [List.find?_cons_of_neg _ (by simp [hak])]
      rw [hstep]
      exact ih k hkt

/-- The chosen volatility member is always a classified indicator. -/
theorem vixKeyOf_isSome (states : List (String × St)) (k : String)
    (h : vixKeyOf states = some k) : (lookupState states k).isSome := by
  unfold vixKeyOf at h
  split_ifs at h with h1 h2
  · cases h; exact h1
  · cases h; exact h2

/-- The chosen volatility member belongs to the snapshot core keys. -/
theorem vixKeyOf_mem (states : List (String × St)) (k : String)
    (h : vixKeyOf states = some k) : k ∈ snapshotCoreKeys states := by
  unfold snapshotCoreKeys
  rw [h]
  exact List.mem_append_right _ (by simp)

/-- The chosen volatility member belongs to the ingest core keys. -/
theorem vixKeyOf_mem_ingest (states : List (String × St)) (k : String)
    (h : vixKeyOf states = some k) : k ∈ ingestCoreKeys states := by
  unfold ingestCoreKeys
  rw [h]
  exact List.mem_append_right _ (by simp)

/-- Looking the volatility member up in the core-state dict is the same
as looking it up among the classified states. -/
theorem vix_bind_core_eq (states : List (String × St)) (ck : List String)
    (hsub : ∀ k, vixKeyOf states = some k → k ∈ ck) :
    (vixKeyOf states).bind (fun k => lookupState (coreStatesOf states ck) k) =
      (vixKeyOf states).bind (lookupState states) := by
  cases hv : vixKeyOf states with
  | none => rfl
  | some k =>
    simp only [Option.some_bind]
    rw [lookupState_coreStatesOf states ck k (hsub k hv)]
    obtain ⟨s, hs⟩ := Option.isSome_iff_exists.mp (vixKeyOf_isSome states k hv)
    rw [hs]
    rfl

/-- Claim C1: with at least 3 core members present, the snapshot regime
follows exactly the claimed priority order — all present members Green →
A; else reds ≥ 3, or reds ≥ 2 with the volatility member Red → C; else
B — together with the claim's particular instances: four Greens → A;
R,R,R,G → C; R,R,G,G → C when a Red is the volatility member and B when
not; four Yellows → B. -/
theorem build_snapshot_regime_rule :
    (∀ states : List (String × St), 3 ≤ (snapshotCoreKeys states).length →
      (build_snapshot_regime states).map (fun r => r.regime) =
        some (claimRegimeRule states)) ∧
    build_snapshot_regime coreAllGreen = some ⟨"A", 0, 0, 4⟩ ∧
    build_snapshot_regime coreThreeRed = some ⟨"C", 6, 3, 1⟩ ∧
    build_snapshot_regime coreTwoRedVol = some ⟨"C", 4, 2, 2⟩ ∧
    build_snapshot_regime coreTwoRedNoVol = some ⟨"B", 4, 2, 2⟩ ∧
    build_snapshot_regime coreAllYellow = some ⟨"B", 4, 0, 0⟩ := by
  refine ⟨?_, by decide, by decide, by decide, by decide, by decide⟩
  intro states h3
  simp only [build_snapshot_regime, claimRegimeRule, if_pos h3,
    Option.map_some']
  have hgreens : (coreStatesOf states (snapshotCoreKeys states)).countP
      (fun p => decide (p.2 = St.G)) =
      (snapshotCoreKeys states).countP
        (fun k => decide ((lookupState states k).getD St.U = St.G)) := by
    unfold coreStatesOf
    rw [List.countP_map]
    rfl
  have hreds : (coreStatesOf states (snapshotCoreKeys states)).countP
      (fun p => decide (p.2 = St.R)) =
      (snapshotCoreKeys states).countP
        (fun k => decide ((lookupState states k).getD St.U = St.R)) := by
    unfold coreStatesOf
    rw [List.countP_map]
    rfl
  have hallg : ((coreStatesOf states (snapshotCoreKeys states)).countP
      (fun p => decide (p.2 = St.G)) = (snapshotCoreKeys states).length) ↔
      (∀ k ∈ snapshotCoreKeys states,
        (lookupState states k).getD St.U = St.G) := by
    rw [hgreens, List.countP_eq_length]
    simp
  have hbind := vix_bind_core_eq states (snapshotCoreKeys states)
    (fun k hk => vixKeyOf_mem states k hk)
  have hc : (3 ≤ (coreStatesOf states (snapshotCoreKeys states)).countP
        (fun p => decide (p.2 = St.R)) ∨
      (2 ≤ (coreStatesOf states (snapshotCoreKeys states)).countP
        (fun p => decide (p.2 = St.R)) ∧ (vixKeyOf states).isSome ∧
        (vixKeyOf states).bind
          (fun k => lookupState (coreStatesOf states (snapshotCoreKeys states)) k)
          = some St.R)) ↔
      (3 ≤ (snapshotCoreKeys states).countP
        (fun k => decide ((lookupState states k).getD St.U = St.R)) ∨
      (2 ≤ (snapshotCoreKeys states).countP
        (fun k => decide ((lookupState states k).getD St.U = St.R)) ∧
        (vixKeyOf states).bind (lookupState states) = some St.R)) := by
    rw [hreds, hbind]
    constructor
    · rintro (h | ⟨h2, _, hb⟩)
      · exact Or.inl h
      · exact Or.inr ⟨h2, hb⟩
    · rintro (h | ⟨h2, hb⟩)
      · exact Or.inl h
      · refine Or.inr ⟨h2, ?_, hb⟩
        cases hv : vixKeyOf states with
        | none => rw [hv] at hb; simp at hb
        | some k => rfl
  exact congrArg some (if_congr hallg rfl (if_congr hc rfl rfl))

/-- Evaluation of claim C1 on the volatility-veto instance R,R,G,G with
the second Red on the volatility member. -/
theorem build_snapshot_regime_rule_witness :
    3 ≤ (snapshotCoreKeys coreTwoRedVol).length ∧
    (build_snapshot_regime coreTwoRedVol).map (fun r => r.regime) =
      some (claimRegimeRule coreTwoRedVol) :=
  ⟨by decide, build_snapshot_regime_rule.1 coreTwoRedVol (by decide)⟩

/-- Claim C6 as amended: in the snapshot path, fewer than 3 classified
core members yields no regime and no allocation; the ingestion path, by
contrast, always writes a regime record, because its three fixed core
keys are counted whether classified or not. -/
theorem missing_core_no_regime :
    (∀ states : List (String × St), (snapshotCoreKeys states).length < 3 →
      build_snapshot_regime states = none ∧
      build_snapshot_allocation states = none) ∧
    (∀ states : List (String × St), (ingest_regime_written states).isSome) := by
  constructor
  · intro states h
    have hn : ¬ 3 ≤ (snapshotCoreKeys states).length := by omega
    have h1 : build_snapshot_regime states = none := by
      simp only [build_snapshot_regime, if_neg hn]
    exact ⟨h1, by simp [build_snapshot_allocation, h1]⟩
  · intro states
    simp only [ingest_regime_written]
    split_ifs with h
    · rfl
    · exfalso
      apply h
      simp only [ingest_regime]
      split_ifs <;> decide

/-- Counterexample to claim C6: in the ingestion path a regime record is
written even when only one of the four core members is classified. -/
theorem ingest_missing_core_counterexample :
    (["synthetic_liquidity", "credit_spread", "funding_stress",
      "vix_structure", "vix_level"].countP
        (fun k => (lookupState [("credit_spread", St.Y)] k).isSome)) = 1 ∧
    ingest_regime_written [("credit_spread", St.Y)] =
      some ⟨"B", 1, 0, 0⟩ := by
  decide

/-- Evaluation of the snapshot half of claim C6: one classified member
gives no regime and no allocation. -/
theorem missing_core_no_regime_witness :
    (snapshotCoreKeys [("credit_spread", St.Y)]).length < 3 ∧
    build_snapshot_regime [("credit_spread", St.Y)] = none ∧
    build_snapshot_allocation [("credit_spread", St.Y)] = none :=
  ⟨by decide,
   (missing_core_no_regime.1 [("credit_spread", St.Y)] (by decide)).1,
   (missing_core_no_regime.1 [("credit_spread", St.Y)] (by decide)).2⟩

/-- Claim C7: whenever a regime is declared — in either path — the risk
score equals the sum over the core member set of the fixed severity
encoding Green=0, Yellow=1, Red=2, Unknown=0; an Unknown core member
contributes 0 to the sum rather than being excluded from it. -/
theorem risk_score_is_severity_sum :
    (∀ (states : List (String × St)) (r : RegimeResult),
      build_snapshot_regime states = some r →
      r.risk_score = ((snapshotCoreKeys states).map
        (fun k => claimSeverity ((lookupState states k).getD St.U))).sum) ∧
    (∀ states : List (String × St),
      (ingest_regime states).risk_score = ((ingestCoreKeys states).map
        (fun k => claimSeverity ((lookupState states k).getD St.U))).sum) := by
  have hmap : ∀ (states : List (String × St)) (ck : List String),
      ((coreStatesOf states ck).map (fun p => score p.2)).sum =
        (ck.map (fun k => claimSeverity ((lookupState states k).getD St.U))).sum := by
    intro states ck
    unfold coreStatesOf
    rw [List.map_map]
    have hfun : ((fun p : String × St => score p.2) ∘
        (fun k => (k, (lookupState states k).getD St.U))) =
        (fun k => claimSeverity ((lookupState states k).getD St.U)) := by
      funext k
      cases hst : (lookupState states k).getD St.U <;>
        simp [Function.comp, score, claimSeverity, hst]
    rw [hfun]
  constructor
  · intro states r hr
    simp only [build_snapshot_regime] at hr
    by_cases h3 : 3 ≤ (snapshotCoreKeys states).length
    · rw [if_pos h3] at hr
      injection hr with hr'
      subst hr'
      exact hmap states (snapshotCoreKeys states)
    · rw [if_neg h3] at hr
      exact Option.noConfusion hr
  · intro states
    simp only [ingest_regime]
    exact hmap states (ingestCoreKeys states)

/-- Evaluation of claim C7 on four Yellow members: risk score 4 = 1+1+1+1. -/
theorem risk_score_is_severity_sum_witness :
    build_snapshot_regime coreAllYellow = some ⟨"B", 4, 0, 0⟩ ∧
    (⟨"B", 4, 0, 0⟩ : RegimeResult).risk_score =
      ((snapshotCoreKeys coreAllYellow).map
        (fun k => claimSeverity ((lookupState coreAllYellow k).getD St.U))).sum :=
  ⟨by decide,
   risk_score_is_severity_sum.1 coreAllYellow ⟨"B", 4, 0, 0⟩ (by decide)⟩

/-- Claim C10: a core indicator classified Unknown still counts as a
present core member toward the minimum-3 requirement, and when every
counted core member is Unknown (so reds = 0 and greens = 0) a regime is
still declared and it is Neutral (B). -/
theorem unknown_core_members_count :
    (∀ (states : List (String × St)) (k : String),
      lookupState states k = some St.U →
      k ∈ ["synthetic_liquidity", "credit_spread", "funding_stress"] →
      k ∈ snapshotCoreKeys states) ∧
    (∀ states : List (String × St),
      3 ≤ (snapshotCoreKeys states).length →
      (∀ k ∈ snapshotCoreKeys states, lookupState states k = some St.U) →
      (build_snapshot_regime states).map (fun r => r.regime) = some "B") := by
  constructor
  · intro states k hU hmem
    unfold snapshotCoreKeys
    apply List.mem_append_left
    rw [List.mem_filter]
    exact ⟨hmem, by rw [hU]; rfl⟩
  · intro states h3 hU
    simp only [build_snapshot_regime, if_pos h3, Option.map_some']
    have hg : (coreStatesOf states (snapshotCoreKeys states)).countP
        (fun p => decide (p.2 = St.G)) = 0 := by
      unfold coreStatesOf
      rw [List.countP_map, List.countP_eq_zero]
      intro k hk
      simp [Function.comp, hU k hk]
    have hr : (coreStatesOf states (snapshotCoreKeys states)).countP
        (fun p => decide (p.2 = St.R)) = 0 := by
      unfold coreStatesOf
      rw [List.countP_map, List.countP_eq_zero]
      intro k hk
      simp [Function.comp, hU k hk]
    rw [hg, hr]
    rw [if_neg (by omega), if_neg (by simp)]

/-- Evaluation of claim C10: three Unknown members declare regime B. -/
theorem unknown_core_members_count_witness :
    3 ≤ (snapshotCoreKeys [("synthetic_liquidity", St.U),
      ("credit_spread", St.U), ("funding_stress", St.U)]).length ∧
    (build_snapshot_regime [("synthetic_liquidity", St.U),
      ("credit_spread", St.U), ("funding_stress", St.U)]).map
        (fun r => r.regime) = some "B" :=
  ⟨by decide,
   unknown_core_members_count.2 [("synthetic_liquidity", St.U),
     ("credit_spread", St.U), ("funding_stress", St.U)]
     (by decide) (by decide)⟩

/-- Claim C9: the effective as-of date is the minimum over the required
core source series of each series' maximum observation date at or before
the requested date (series with no observation are skipped), and it is
null exactly when no core source series has any observation at or before
the requested date. -/
theorem choose_effective_asof_spec (db : List (String × ℤ)) (today : ℤ)
    (requested : Option ℤ) :
    (choose_effective_asof db today requested = none ↔
      ∀ k ∈ core_sources_for db (requested.getD today),
        max_date_leq db k (requested.getD today) = none) ∧
    (∀ d, choose_effective_asof db today requested = some d →
      (∃ k ∈ core_sources_for db (requested.getD today),
        max_date_leq db k (requested.getD today) = some d) ∧
      (∀ k ∈ core_sources_for db (requested.getD today),
        ∀ d', max_date_leq db k (requested.getD today) = some d' → d ≤ d')) ∧
    (∀ k, max_date_leq db k (requested.getD today) = none ↔
      ∀ p ∈ db, p.1 = k → ¬ p.2 ≤ requested.getD today) := by
  refine ⟨?_, ?_, ?_⟩
  · simp only [choose_effective_asof, List.min?_eq_none_iff,
      List.filterMap_eq_nil_iff]
  · intro d hd
    simp only [choose_effective_asof] at hd
    constructor
    · obtain ⟨k, hk, hfk⟩ :=
        List.mem_filterMap.mp (List.min?_mem (fun a b => min_choice a b) hd)
      exact ⟨k, hk, hfk⟩
    · intro k hk d' hd'
      have hle := (List.le_min?_iff (fun _ _ _ => le_min_iff) hd).1 (le_refl d)
      exact hle d' (List.mem_filterMap.mpr ⟨k, hk, hd'⟩)
  · intro k
    simp only [max_date_leq, List.max?_eq_none_iff, List.map_eq_nil_iff,
      List.filter_eq_nil_iff, Bool.and_eq_true, decide_eq_true_eq, not_and]

/-- Evaluation of claim C9: on the concrete store the effective as-of is
11 (hy_oas's max), a lower bound of vix's max 13 via the theorem. -/
theorem choose_effective_asof_spec_witness :
    choose_effective_asof cdb 100 none = some 11 ∧ (11 : ℤ) ≤ 13 :=
  ⟨by decide,
   ((choose_effective_asof_spec cdb 100 none).2.1 11 (by decide)).2
     "vix" (by decide) 13 (by decide)⟩

end Marco
